import Mathlib

/-!
Verification of the core logic of the NBA Prop Dashboard (src/Player_GUI.py),
shallowly embedded in Lean 4.

Modelling conventions:
* Python floats are modelled as exact rationals (ℚ).
* Python strings are modelled as `String` (or as `List Char` where list
  lemmas are needed for proofs about slicing).
* Fallible operations (division, which raises on a zero divisor) are
  modelled with `Option`.
-/

namespace NBADash

/-- Guarded division: Python raises on division by zero, so the embedding
returns `none` when the divisor is zero. -/
def pyDiv (a b : ℚ) : Option ℚ :=
  if b = 0 then none else some (a / b)

/-- The branch chain of `matchup_multiplier` (src/Player_GUI.py lines 69-78),
kept in exactly the source order: `z >= 1.0`, `z >= 0.5`, `z <= -1.0`,
`z <= -0.5`, else. -/
def bandCode (z : ℚ) : ℚ :=
  if z ≥ 1.0 then 1.25
  else if z ≥ 0.5 then 1.15
  else if z ≤ -1.0 then 0.85
  else if z ≤ -0.5 then 0.75
  else 1.00

/-- Embedding of `matchup_multiplier(pts_allowed, avg, std)`
(src/Player_GUI.py lines 67-78).  The z-score is computed by an unguarded
division over the function's inputs (modelled by `pyDiv`), then fed to the
branch chain `bandCode`. -/
def matchup_multiplier (pts_allowed avg std : ℚ) : Option ℚ :=
  (pyDiv (pts_allowed - avg) std).map bandCode

/-- The band table of §4.1 of the spec, written from the spec's words
(first matching row wins): z ≥ 1.0 → 1.25; 0.5 ≤ z < 1.0 → 1.15;
−0.5 < z < 0.5 → 1.00; −1.0 < z ≤ −0.5 → 0.75; z ≤ −1.0 → 0.85. -/
def bandTable (z : ℚ) : ℚ :=
  if 1.0 ≤ z then 1.25
  else if 0.5 ≤ z ∧ z < 1.0 then 1.15
  else if -0.5 < z ∧ z < 0.5 then 1.00
  else if -1.0 < z ∧ z ≤ -0.5 then 0.75
  else 0.85

/-- Embedding of `simplify_slot(position)` (src/Player_GUI.py lines 90-98).
Python's `"G" in position` with a one-character needle is exactly a
character-containment test on the string, modelled on the string's
character list. -/
def simplify_slot (position : String) : String :=
  if position.toList.contains 'G' then "PG"
  else if position.toList.contains 'F' then "SF"
  else if position.toList.contains 'C' then "C"
  else "PG"

/-- Python's `str(n)` for a natural number, modelled as the character list
of the decimal digits, most significant first (`str(0) = "0"`). -/
def natRepr (n : ℕ) : List Char :=
  if n = 0 then ['0'] else ((Nat.digits 10 n).map Nat.digitChar).reverse

/-- Python's `s[-2:]` on a string modelled as a character list: the last
two characters (the whole string when it is shorter than two). -/
def pyLast2 (s : List Char) : List Char := s.drop (s.length - 2)

/-- Python's `int(s)` on a decimal-digit string modelled as a character
list. -/
def pyInt (s : List Char) : ℕ :=
  s.foldl (fun a c => 10 * a + (c.toNat - 48)) 0

/-- Embedding of `get_season_string()` (src/Player_GUI.py lines 8-17),
parameterised by today's year and month: if `month >= 10` the season is
`f"{year}-{str(year+1)[-2:]}"`, otherwise `f"{year-1}-{str(year)[-2:]}"`. -/
def get_season_string (year month : ℕ) : List Char :=
  if 10 ≤ month then natRepr year ++ '-' :: pyLast2 (natRepr (year + 1))
  else natRepr (year - 1) ++ '-' :: pyLast2 (natRepr year)

/-- The two-character zero-padded decimal rendering of `m < 100`: the
spec's "last two digits". -/
def twoDigits (m : ℕ) : List Char :=
  [Nat.digitChar (m / 10), Nat.digitChar (m % 10)]

/-- The season string as the spec's §8 words describe it: on/after
October, `"<year>-<last two digits of year+1>"`; before October,
`"<year-1>-<last two digits of year>"`. -/
def seasonSpec (year month : ℕ) : List Char :=
  if 10 ≤ month then natRepr year ++ '-' :: twoDigits ((year + 1) % 100)
  else natRepr (year - 1) ++ '-' :: twoDigits (year % 100)

/-- Embedding of the previous-season derivation in `get_last_10_games`
(src/Player_GUI.py line 33):
`previous_season = f"{int(current_season[:4]) - 1}-{current_season[:2]}"`. -/
def previous_season (current_season : List Char) : List Char :=
  natRepr (pyInt (current_season.take 4) - 1) ++ '-' :: current_season.take 2

/-- The parameters of one request issued by `get_dvp_table`
(src/Player_GUI.py lines 48-53). -/
structure DvpRequest where
  measure_type_detailed_defense : String
  per_mode_detailed : String
  player_position_abbreviation : String
  season : String
  deriving DecidableEq

/-- The position groups iterated by `get_dvp_table` (line 45). -/
def position_groups : List String := ["G", "F", "C"]

/-- Model of the three API requests issued by `get_dvp_table`
(src/Player_GUI.py lines 43-56).  The model is parameterised by today's
(year, month) so that date-independence can be stated; the code itself
takes no date and hard-codes `season='2024-25'`. -/
def get_dvp_table_requests (_today : ℕ × ℕ) : List DvpRequest :=
  position_groups.map fun pos =>
    { measure_type_detailed_defense := "Opponent"
      per_mode_detailed := "PerGame"
      player_position_abbreviation := pos
      season := "2024-25" }

/-- The per-game over-line flags computed by `stat_chart`
(src/Player_GUI.py line 126): `df["OverLine"] = df[stat] > line_value`. -/
def over_line_flags (stats : List ℚ) (line_value : ℚ) : List Bool :=
  stats.map fun v => decide (v > line_value)

/-- Embedding of `pct_above(df, stat, line)` (src/Player_GUI.py lines
169-170): the percentage of games whose stat strictly exceeds the line;
`none` models the division error on an empty table. -/
def pct_above (stats : List ℚ) (line : ℚ) : Option ℚ :=
  if stats.length = 0 then none
  else
    some (((stats.filter fun v => decide (v > line)).length : ℚ) /
      (stats.length : ℚ) * 100)

/-- One row of the pivoted DvP table built by `get_dvp_table` (lines
58-65): a team name and its points allowed to each position group. -/
structure DvpRow where
  team_name : String
  guard_pts_allowed : ℚ
  forward_pts_allowed : ℚ
  center_pts_allowed : ℚ

/-- Embedding of `get_matchup_score(row, slot, ...)` (src/Player_GUI.py
lines 80-88). -/
def get_matchup_score (row : DvpRow) (slot : String)
    (guard_avg guard_std forward_avg forward_std center_avg center_std : ℚ) :
    Option ℚ :=
  if slot ∈ ["PG", "SG"] then
    matchup_multiplier row.guard_pts_allowed guard_avg guard_std
  else if slot ∈ ["SF", "PF"] then
    matchup_multiplier row.forward_pts_allowed forward_avg forward_std
  else if slot = "C" then
    matchup_multiplier row.center_pts_allowed center_avg center_std
  else some 1.00

/-- The abbreviation-to-team-name dictionary `team_map`
(src/Player_GUI.py lines 195-206). -/
def team_map : List (String × String) :=
  [("ATL", "Atlanta Hawks"), ("BOS", "Boston Celtics"), ("BKN", "Brooklyn Nets"),
   ("CHA", "Charlotte Hornets"), ("CHI", "Chicago Bulls"), ("CLE", "Cleveland Cavaliers"),
   ("DAL", "Dallas Mavericks"), ("DEN", "Denver Nuggets"), ("DET", "Detroit Pistons"),
   ("GSW", "Golden State Warriors"), ("HOU", "Houston Rockets"), ("IND", "Indiana Pacers"),
   ("LAC", "LA Clippers"), ("LAL", "Los Angeles Lakers"), ("MEM", "Memphis Grizzlies"),
   ("MIA", "Miami Heat"), ("MIL", "Milwaukee Bucks"), ("MIN", "Minnesota Timberwolves"),
   ("NOP", "New Orleans Pelicans"), ("NYK", "New York Knicks"), ("OKC", "Oklahoma City Thunder"),
   ("ORL", "Orlando Magic"), ("PHI", "Philadelphia 76ers"), ("PHX", "Phoenix Suns"),
   ("POR", "Portland Trail Blazers"), ("SAC", "Sacramento Kings"), ("SAS", "San Antonio Spurs"),
   ("TOR", "Toronto Raptors"), ("UTA", "Utah Jazz"), ("WAS", "Washington Wizards")]

/-- What the matchup section of the display produces, and whether the rest
of the page (game table, charts) still renders after it. -/
structure MatchupSection where
  metric : Option ℚ
  warned : Bool
  tableShown : Bool
  chartsShown : Bool

/-- Embedding of the matchup-section logic of the display path
(src/Player_GUI.py lines 208-219 and the following table/chart rendering):
`team_map.get(opponent_abbr)` is an association-list lookup; Python's
`if team_name and team_name in dvp_table["TEAM_NAME"].values` is falsy for
a missing key (`none`), for an empty name, and for a name absent from the
table; on the falsy path a warning is emitted and the metric is skipped,
and the game table and charts render in either case.  The function is
total: no exception is raised. -/
def render_matchup_section (opponent_abbr slot : String) (dvp : List DvpRow)
    (guard_avg guard_std forward_avg forward_std center_avg center_std : ℚ) :
    MatchupSection :=
  match team_map.lookup opponent_abbr with
  | some team_name =>
      if team_name ≠ "" ∧ (dvp.map DvpRow.team_name).contains team_name then
        { metric :=
            (dvp.find? fun r => r.team_name == team_name).bind fun row =>
              get_matchup_score row slot guard_avg guard_std forward_avg
                forward_std center_avg center_std
          warned := false
          tableShown := true
          chartsShown := true }
      else
        { metric := none, warned := true, tableShown := true, chartsShown := true }
  | none =>
      { metric := none, warned := true, tableShown := true, chartsShown := true }

/-- The source's branch chain computes exactly the §4.1 band table. -/
theorem bandCode_eq_bandTable (z : ℚ) : bandCode z = bandTable z := by
  unfold bandCode bandTable
  rcases le_or_lt (1 : ℚ) z with h1 | h1
  · rw [if_pos (show z ≥ 1.0 by norm_num; linarith),
      if_pos (show (1.0 : ℚ) ≤ z by norm_num; linarith)]
  · rcases le_or_lt (1/2 : ℚ) z with h2 | h2
    · rw [if_neg (show ¬ z ≥ 1.0 by intro h; norm_num at h; linarith),
        if_pos (show z ≥ 0.5 by norm_num; linarith),
        if_neg (show ¬ (1.0 : ℚ) ≤ z by intro h; norm_num at h; linarith),
        if_pos (show (0.5 : ℚ) ≤ z ∧ z < 1.0 by norm_num; constructor <;> linarith)]
    · rcases lt_or_le (-(1/2) : ℚ) z with h3 | h3
      · rw [if_neg (show ¬ z ≥ 1.0 by intro h; norm_num at h; linarith),
          if_neg (show ¬ z ≥ 0.5 by intro h; norm_num at h; linarith),
          if_neg (show ¬ z ≤ -1.0 by intro h; norm_num at h; linarith),
          if_neg (show ¬ z ≤ -0.5 by intro h; norm_num at h; linarith),
          if_neg (show ¬ (1.0 : ℚ) ≤ z by intro h; norm_num at h; linarith),
          if_neg (show ¬ ((0.5 : ℚ) ≤ z ∧ z < 1.0) by rintro ⟨h, -⟩; norm_num at h; linarith),
          if_pos (show (-0.5 : ℚ) < z ∧ z < 0.5 by norm_num; constructor <;> linarith)]
      · rcases lt_or_le (-1 : ℚ) z with h4 | h4
        · rw [if_neg (show ¬ z ≥ 1.0 by intro h; norm_num at h; linarith),
            if_neg (show ¬ z ≥ 0.5 by intro h; norm_num at h; linarith),
            if_neg (show ¬ z ≤ -1.0 by intro h; norm_num at h; linarith),
            if_pos (show z ≤ -0.5 by norm_num; linarith),
            if_neg (show ¬ (1.0 : ℚ) ≤ z by intro h; norm_num at h; linarith),
            if_neg (show ¬ ((0.5 : ℚ) ≤ z ∧ z < 1.0) by rintro ⟨h, -⟩; norm_num at h; linarith),
            if_neg (show ¬ ((-0.5 : ℚ) < z ∧ z < 0.5) by rintro ⟨h, -⟩; norm_num at h; linarith),
            if_pos (show (-1.0 : ℚ) < z ∧ z ≤ -0.5 by norm_num; constructor <;> linarith)]
        · rw [if_neg (show ¬ z ≥ 1.0 by intro h; norm_num at h; linarith),
            if_neg (show ¬ z ≥ 0.5 by intro h; norm_num at h; linarith),
            if_pos (show z ≤ -1.0 by norm_num; linarith),
            if_neg (show ¬ (1.0 : ℚ) ≤ z by intro h; norm_num at h; linarith),
            if_neg (show ¬ ((0.5 : ℚ) ≤ z ∧ z < 1.0) by rintro ⟨h, -⟩; norm_num at h; linarith),
            if_neg (show ¬ ((-0.5 : ℚ) < z ∧ z < 0.5) by rintro ⟨h, -⟩; norm_num at h; linarith),
            if_neg (show ¬ ((-1.0 : ℚ) < z ∧ z ≤ -0.5) by rintro ⟨h, -⟩; norm_num at h; linarith)]

/-- C1: for every `pts_allowed`, `avg`, `std` with `std ≠ 0`,
`matchup_multiplier` returns exactly the §4.1 band table applied to
`z = (pts_allowed − avg) / std`, with every boundary closed or open exactly
as listed there. -/
theorem matchup_multiplier_eq_bandTable (pts_allowed avg std : ℚ)
    (hstd : std ≠ 0) :
    matchup_multiplier pts_allowed avg std =
      some (bandTable ((pts_allowed - avg) / std)) := by
  unfold matchup_multiplier pyDiv
  rw [if_neg hstd]
  simp only [Option.map_some']
  rw [bandCode_eq_bandTable]

/-- Witness for C1, at the spec's own test point `z = 1.2`
(`pts_allowed = 6/5`, `avg = 0`, `std = 1`): the hypothesis `std ≠ 0`
holds and the result is the table value, which is exactly `1.25`. -/
theorem matchup_multiplier_eq_bandTable_witness :
    (1 : ℚ) ≠ 0 ∧
      matchup_multiplier (6/5) 0 1 = some (bandTable ((6/5 - 0) / 1)) ∧
      bandTable ((6/5 - 0 : ℚ) / 1) = 1.25 :=
  ⟨by norm_num,
   matchup_multiplier_eq_bandTable (6/5) 0 1 (by norm_num),
   by norm_num [bandTable]⟩

/-- Counterexample to C2: the input `pts_allowed = -2`, `avg = 0`, `std = 1`
(so `z = -2`) makes `matchup_multiplier` return `0.85`, refuting the claim
that no input with `std ≠ 0` yields `0.85`. -/
theorem matchup_multiplier_085_reached :
    matchup_multiplier (-2) 0 1 = some 0.85 := by
  norm_num [matchup_multiplier, pyDiv, bandCode]

/-- C2 (amended): in the source the `z <= -1.0` condition is checked
before the `z <= -0.5` condition (lines 73 and 75), so the branch
returning `0.85` is reachable: for every input with `std ≠ 0`,
`matchup_multiplier` returns `0.85` exactly when `z ≤ -1.0`. -/
theorem matchup_multiplier_low_band_iff (pts_allowed avg std : ℚ)
    (hstd : std ≠ 0) :
    matchup_multiplier pts_allowed avg std = some 0.85 ↔
      (pts_allowed - avg) / std ≤ -1 := by
  unfold matchup_multiplier pyDiv
  rw [if_neg hstd]
  simp only [Option.map_some', Option.some.injEq]
  set z : ℚ := (pts_allowed - avg) / std
  unfold bandCode
  constructor
  · intro h
    by_contra hz
    push_neg at hz
    split_ifs at h with hA hB hC hD
    · exact absurd h (by norm_num)
    · exact absurd h (by norm_num)
    · norm_num at hC; linarith
    · exact absurd h (by norm_num)
    · exact absurd h (by norm_num)
  · intro hz
    rw [if_neg (show ¬ z ≥ 1.0 by intro h; norm_num at h; linarith),
      if_neg (show ¬ z ≥ 0.5 by intro h; norm_num at h; linarith),
      if_pos (show z ≤ -1.0 by norm_num; linarith)]

/-- Witness for C2 (amended), at `pts_allowed = -2`, `avg = 0`, `std = 1`:
the hypothesis `std ≠ 0` holds, `z = -2 ≤ -1`, and the result is `0.85`. -/
theorem matchup_multiplier_low_band_iff_witness :
    (1 : ℚ) ≠ 0 ∧ ((-2 : ℚ) - 0) / 1 ≤ -1 ∧
      matchup_multiplier (-2) 0 1 = some 0.85 :=
  ⟨by norm_num, by norm_num,
   (matchup_multiplier_low_band_iff (-2) 0 1 (by norm_num)).mpr (by norm_num)⟩

/-- Counterexample to C3: with `std = 1`, `avg = 0`, `d = 1/2`, the upward
deviation lands in the `1.15` band while the downward one lands in the
`0.75` band, and `1.15 − 1.00 ≠ 1.00 − 0.75`: the bands are not symmetric
around `1.00`. -/
theorem matchup_multiplier_not_symmetric :
    matchup_multiplier (0 + (1/2) * 1) 0 1 = some 1.15 ∧
      matchup_multiplier (0 - (1/2) * 1) 0 1 = some 0.75 ∧
      ¬ ((1.15 : ℚ) - 1.00 = 1.00 - 0.75) := by
  exact ⟨by norm_num [matchup_multiplier, pyDiv, bandCode],
    by norm_num [matchup_multiplier, pyDiv, bandCode],
    by norm_num⟩

/-- C3 (amended): the multiplier is a step function of the z-score with
five fixed bands, but it is symmetric around `1.00` only on the central
band: for every `std > 0` and every deviation `d` with `0 ≤ d < 0.5`, both
`matchup_multiplier (avg + d·std)` and `matchup_multiplier (avg − d·std)`
are defined and their offsets from `1.00` cancel (both are `1.00`); for
`d ≥ 0.5` the symmetry fails (`1.15`/`0.75` and `1.25`/`0.85`). -/
theorem matchup_multiplier_central_symmetry (avg std d : ℚ)
    (hstd : 0 < std) (hd0 : 0 ≤ d) (hd : d < 1/2) :
    ∃ up down : ℚ,
      matchup_multiplier (avg + d * std) avg std = some up ∧
        matchup_multiplier (avg - d * std) avg std = some down ∧
        up - 1.00 = 1.00 - down := by
  have hs : std ≠ 0 := ne_of_gt hstd
  have hz1 : (avg + d * std - avg) / std = d := by field_simp
  have hz2 : (avg - d * std - avg) / std = -d := by
    field_simp
  refine ⟨bandCode d, bandCode (-d), ?_, ?_, ?_⟩
  · unfold matchup_multiplier pyDiv
    rw [if_neg hs, Option.map_some', hz1]
  · unfold matchup_multiplier pyDiv
    rw [if_neg hs, Option.map_some', hz2]
  · have h1 : bandCode d = 1.00 := by
      unfold bandCode
      rw [if_neg (show ¬ d ≥ 1.0 by intro h; norm_num at h; linarith),
        if_neg (show ¬ d ≥ 0.5 by intro h; norm_num at h; linarith),
        if_neg (show ¬ d ≤ -1.0 by intro h; norm_num at h; linarith),
        if_neg (show ¬ d ≤ -0.5 by intro h; norm_num at h; linarith)]
    have h2 : bandCode (-d) = 1.00 := by
      unfold bandCode
      rw [if_neg (show ¬ -d ≥ 1.0 by intro h; norm_num at h; linarith),
        if_neg (show ¬ -d ≥ 0.5 by intro h; norm_num at h; linarith),
        if_neg (show ¬ -d ≤ -1.0 by intro h; norm_num at h; linarith),
        if_neg (show ¬ -d ≤ -0.5 by intro h; norm_num at h; linarith)]
    rw [h1, h2]

/-- Witness for C3 (amended), at `avg = 0`, `std = 1`, `d = 1/4`: both
deviations are mapped into the central band. -/
theorem matchup_multiplier_central_symmetry_witness :
    (0 : ℚ) < 1 ∧ (0 : ℚ) ≤ 1/4 ∧ (1/4 : ℚ) < 1/2 ∧
      ∃ up down : ℚ,
        matchup_multiplier (0 + (1/4) * 1) 0 1 = some up ∧
          matchup_multiplier (0 - (1/4) * 1) 0 1 = some down ∧
          up - 1.00 = 1.00 - down :=
  ⟨by norm_num, by norm_num, by norm_num,
   matchup_multiplier_central_symmetry 0 1 (1/4) (by norm_num) (by norm_num)
     (by norm_num)⟩

/-- C6: `matchup_multiplier` divides by `std` unconditionally, with no
internal guard: at `std = 0` the guarded division's error branch is
reached (`none`), and for every `std ≠ 0` the computation succeeds, so
`std ≠ 0` is a precondition the caller must establish. -/
theorem matchup_multiplier_div_unguarded (pts_allowed avg std : ℚ) :
    matchup_multiplier pts_allowed avg 0 = none ∧
      (std ≠ 0 → (matchup_multiplier pts_allowed avg std).isSome = true) := by
  constructor
  · unfold matchup_multiplier pyDiv
    rw [if_pos rfl]
    rfl
  · intro hs
    unfold matchup_multiplier pyDiv
    rw [if_neg hs]
    rfl

/-- Witness for C6, at `pts_allowed = 5`, `avg = 2`, `std = 1`. -/
theorem matchup_multiplier_div_unguarded_witness :
    matchup_multiplier 5 2 0 = none ∧
      ((1 : ℚ) ≠ 0 → (matchup_multiplier 5 2 1).isSome = true) :=
  matchup_multiplier_div_unguarded 5 2 1

/-- C4: `simplify_slot` is decided in order by character content only:
`"G"` first (→ `"PG"`), then `"F"` (→ `"SF"`), then `"C"` (→ `"C"`),
default `"PG"`; in particular `simplify_slot "Guard-Forward" = "PG"`
because `"G"` is checked first. -/
theorem simplify_slot_spec (position : String) :
    (position.toList.contains 'G' = true → simplify_slot position = "PG") ∧
      (position.toList.contains 'G' = false → position.toList.contains 'F' = true →
        simplify_slot position = "SF") ∧
      (position.toList.contains 'G' = false → position.toList.contains 'F' = false →
        position.toList.contains 'C' = true → simplify_slot position = "C") ∧
      (position.toList.contains 'G' = false → position.toList.contains 'F' = false →
        position.toList.contains 'C' = false → simplify_slot position = "PG") ∧
      simplify_slot "Guard-Forward" = "PG" := by
  refine ⟨?_, ?_, ?_, ?_, by decide⟩ <;> intros <;>
    simp_all [simplify_slot]

/-- Witness for C4, at `position = "Guard-Forward"` (contains both `'G'`
and `'F'`; the `'G'` test wins). -/
theorem simplify_slot_spec_witness :
    ("Guard-Forward".toList.contains 'G' = true) ∧
      simplify_slot "Guard-Forward" = "PG" :=
  ⟨by decide, (simplify_slot_spec "Guard-Forward").1 (by decide)⟩

theorem natRepr_length (n : ℕ) (h : n ≠ 0) :
    (natRepr n).length = Nat.log 10 n + 1 := by
  unfold natRepr
  rw [if_neg h]
  simp [Nat.digits_len 10 n (by norm_num) h]

theorem natRepr_length_four (y : ℕ) (h1 : 1000 ≤ y) (h2 : y ≤ 9999) :
    (natRepr y).length = 4 := by
  rw [natRepr_length y (by omega)]
  have hlog : Nat.log 10 y = 3 :=
    Nat.log_eq_of_pow_le_of_lt_pow (by norm_num; omega) (by norm_num; omega)
  omega

/-- The last two characters of the decimal rendering of `n ≥ 100` are the
zero-padded rendering of `n % 100`. -/
theorem pyLast2_natRepr (n : ℕ) (h : 100 ≤ n) :
    pyLast2 (natRepr n) = twoDigits (n % 100) := by
  have h1 : Nat.digits 10 n = n % 10 :: Nat.digits 10 (n / 10) :=
    Nat.digits_def' (by norm_num) (by omega)
  have h2 : Nat.digits 10 (n / 10) = n / 10 % 10 :: Nat.digits 10 (n / 10 / 10) :=
    Nat.digits_def' (by norm_num) (by omega)
  unfold natRepr pyLast2
  rw [if_neg (by omega : ¬ n = 0), h1, h2]
  simp only [List.map_cons, List.reverse_cons, List.append_assoc,
    List.length_append, List.length_reverse, List.length_map,
    List.singleton_append, List.length_cons, List.length_nil]
  have hdrop :
      ((List.map Nat.digitChar (Nat.digits 10 (n / 10 / 10))).reverse ++
          [Nat.digitChar (n / 10 % 10), Nat.digitChar (n % 10)]).drop
        ((Nat.digits 10 (n / 10 / 10)).length + (0 + 1 + 1) - 2) =
        [Nat.digitChar (n / 10 % 10), Nat.digitChar (n % 10)] := by
    have hlen : (List.map Nat.digitChar (Nat.digits 10 (n / 10 / 10))).reverse.length =
        (Nat.digits 10 (n / 10 / 10)).length := by simp
    rw [show (Nat.digits 10 (n / 10 / 10)).length + (0 + 1 + 1) - 2 =
        (Nat.digits 10 (n / 10 / 10)).length by omega, ← hlen, List.drop_left]
  rw [hdrop]
  unfold twoDigits
  rw [show n % 100 / 10 = n / 10 % 10 by omega, show n % 100 % 10 = n % 10 by omega]

/-- C5: `get_season_string` returns the current NBA season string: for a
month on/after October it is `"<year>-<last two digits of year+1>"`, and
before October it is `"<year-1>-<last two digits of year>"`, where the
last two digits are the zero-padded value mod 100. -/
theorem get_season_string_spec (year month : ℕ) (h : 100 ≤ year) :
    get_season_string year month = seasonSpec year month := by
  unfold get_season_string seasonSpec
  split_ifs
  · rw [pyLast2_natRepr (year + 1) (by omega)]
  · rw [pyLast2_natRepr year h]

/-- Witness for C5, at `year = 2025`: October 2025 gives the 2025-26
season, March 2025 gives the 2024-25 season. -/
theorem get_season_string_spec_witness :
    (100 ≤ 2025) ∧
      get_season_string 2025 10 = seasonSpec 2025 10 ∧
      get_season_string 2025 3 = seasonSpec 2025 3 :=
  ⟨by norm_num, get_season_string_spec 2025 10 (by norm_num),
   get_season_string_spec 2025 3 (by norm_num)⟩

theorem digitChar_toNat_sub (d : ℕ) (h : d < 10) :
    (Nat.digitChar d).toNat - 48 = d := by
  interval_cases d <;> decide

theorem foldr_digits_ofDigits (l : List ℕ) (hl : ∀ d ∈ l, d < 10) :
    l.foldr (fun d a => 10 * a + ((Nat.digitChar d).toNat - 48)) 0 =
      Nat.ofDigits 10 l := by
  induction l with
  | nil => simp [Nat.ofDigits_nil]
  | cons d t ih =>
    rw [List.foldr_cons, ih (fun x hx => hl x (List.mem_cons_of_mem _ hx)),
      Nat.ofDigits_cons, digitChar_toNat_sub d (hl d (List.mem_cons_self _ _))]
    ring

/-- Parsing the decimal rendering of a natural number gives the number
back: `int(str(n)) = n`. -/
theorem pyInt_natRepr (n : ℕ) : pyInt (natRepr n) = n := by
  by_cases hn : n = 0
  · subst hn; decide
  · unfold pyInt natRepr
    rw [if_neg hn, List.foldl_reverse, List.foldr_map]
    rw [foldr_digits_ofDigits _ (fun d hd => Nat.digits_lt_base (by norm_num) hd)]
    exact Nat.ofDigits_digits 10 n

/-- C8: for every current-season string `"YYYY-ZZ"` produced from a
four-digit year `y`, the derived previous-season string is
`str(y − 1) ++ "-" ++` the first two characters of the current string (the
century digits of `y`) — not the last two digits of the previous season's
end year. -/
theorem previous_season_spec (y : ℕ) (t : List Char)
    (h1 : 1000 ≤ y) (h2 : y ≤ 9999) :
    previous_season (natRepr y ++ '-' :: t) =
      natRepr (y - 1) ++ '-' :: (natRepr y).take 2 := by
  have hlen : (natRepr y).length = 4 := natRepr_length_four y h1 h2
  unfold previous_season
  rw [List.take_left' hlen, pyInt_natRepr]
  have htake : (natRepr y ++ '-' :: t).take 2 = (natRepr y).take 2 := by
    rw [List.take_append_eq_append_take, hlen]
    simp
  rw [htake]

/-- Witness for C8, at the spec's example: current season `"2024-25"`
yields `"2023-20"`, whose suffix `"20"` is the century, not `"24"` (the
last two digits of the previous season's end year 2024). -/
theorem previous_season_spec_witness :
    ((1000 ≤ 2024 ∧ 2024 ≤ 9999) ∧
        previous_season (natRepr 2024 ++ '-' :: ['2', '5']) =
          natRepr 2023 ++ '-' :: (natRepr 2024).take 2) ∧
      natRepr 2024 ++ '-' :: ['2', '5'] = "2024-25".toList ∧
      natRepr 2023 ++ '-' :: (natRepr 2024).take 2 = "2023-20".toList ∧
      (natRepr 2024).take 2 ≠ twoDigits (2024 % 100) :=
  ⟨⟨⟨by norm_num, by norm_num⟩,
    previous_season_spec 2024 ['2', '5'] (by norm_num) (by norm_num)⟩,
   by simp [natRepr, Nat.digits_def', Nat.digitChar],
   by simp [natRepr, Nat.digits_def', Nat.digitChar],
   by simp [natRepr, Nat.digits_def', Nat.digitChar, twoDigits]⟩

/-- C9: `get_dvp_table` always requests league defensive statistics for
the fixed season string `'2024-25'`, once per position group `'G'`, `'F'`,
`'C'`, independently of the current date (and hence of
`get_season_string`). -/
theorem get_dvp_table_requests_fixed_season (d d' : ℕ × ℕ) :
    (get_dvp_table_requests d).map DvpRequest.season =
        ["2024-25", "2024-25", "2024-25"] ∧
      (get_dvp_table_requests d).map DvpRequest.player_position_abbreviation =
        ["G", "F", "C"] ∧
      get_dvp_table_requests d = get_dvp_table_requests d' :=
  ⟨rfl, rfl, rfl⟩

/-- C10: both the over-line flag and the percentage computation use the
strict comparison `stat > line`: a game whose stat value equals the line
is flagged `false` and contributes nothing to the numerator of the
percentage (while still counting in the denominator). -/
theorem at_line_game_not_over (stats : List ℚ) (line v : ℚ) (h : v = line) :
    over_line_flags (v :: stats) line = false :: over_line_flags stats line ∧
      ((v :: stats).filter fun x => decide (x > line)).length =
        (stats.filter fun x => decide (x > line)).length ∧
      pct_above (v :: stats) line =
        some (((stats.filter fun x => decide (x > line)).length : ℚ) /
          ((stats.length : ℚ) + 1) * 100) := by
  subst h
  have hflag : (decide (v > v)) = false := by simp
  refine ⟨?_, ?_, ?_⟩
  · simp [over_line_flags]
  · simp [List.filter_cons, hflag]
  · unfold pct_above
    rw [if_neg (by simp : ¬ (v :: stats).length = 0)]
    rw [List.filter_cons]
    simp only [hflag, Bool.false_eq_true, if_false, List.length_cons]
    push_cast
    ring_nf

/-- Witness for C10, at `stats = [3, 7]`, `line = 5`, `v = 5`. -/
theorem at_line_game_not_over_witness :
    ((5 : ℚ) = 5) ∧
      (over_line_flags (5 :: [3, 7]) 5 = false :: over_line_flags [3, 7] 5 ∧
        (((5 : ℚ) :: [3, 7]).filter fun x => decide (x > 5)).length =
          (([3, 7] : List ℚ).filter fun x => decide (x > 5)).length ∧
        pct_above ((5 : ℚ) :: [3, 7]) 5 =
          some (((([3, 7] : List ℚ).filter fun x => decide (x > 5)).length : ℚ) /
            ((([3, 7] : List ℚ).length : ℚ) + 1) * 100)) :=
  ⟨rfl, at_line_game_not_over [3, 7] 5 5 rfl⟩

/-- C7: whenever the selected opponent abbreviation has no entry in
`team_map`, or its mapped team name is absent from the DvP table's
TEAM_NAME column, the matchup computation is skipped and a warning is
produced instead of a metric, and the rest of the display (game table,
charts) still proceeds; no exception is raised on that path. -/
theorem render_matchup_section_warns (opponent_abbr slot : String)
    (dvp : List DvpRow)
    (guard_avg guard_std forward_avg forward_std center_avg center_std : ℚ)
    (h : team_map.lookup opponent_abbr = none ∨
      ∃ team_name, team_map.lookup opponent_abbr = some team_name ∧
        (dvp.map DvpRow.team_name).contains team_name = false) :
    render_matchup_section opponent_abbr slot dvp guard_avg guard_std
        forward_avg forward_std center_avg center_std =
      { metric := none, warned := true, tableShown := true, chartsShown := true } := by
  unfold render_matchup_section
  rcases h with h | ⟨team_name, hsome, habs⟩
  · rw [h]
  · rw [hsome]
    simp only [habs]
    rw [if_neg]
    intro hcon
    exact absurd hcon.2 (by simp)

/-- Witness for C7, at `opponent_abbr = "BOS"` with an empty DvP table:
the lookup succeeds but the team name is absent from the table, so the
section warns and the page still renders. -/
theorem render_matchup_section_warns_witness :
    (team_map.lookup "BOS" = none ∨
        ∃ team_name, team_map.lookup "BOS" = some team_name ∧
          (([] : List DvpRow).map DvpRow.team_name).contains team_name = false) ∧
      render_matchup_section "BOS" "PG" [] 1 1 1 1 1 1 =
        { metric := none, warned := true, tableShown := true, chartsShown := true } :=
  ⟨Or.inr ⟨"Boston Celtics", by decide, by decide⟩,
   render_matchup_section_warns "BOS" "PG" [] 1 1 1 1 1 1
     (Or.inr ⟨"Boston Celtics", by decide, by decide⟩)⟩

end NBADash
